import Mathlib

/-!
Verification of the `master-logger` repository.

The development shallowly embeds the two Logger implementations of the
repository:

* `MasterLogger` models `src/master_logger/master_logger.py` (the package
  module, contextvars based);
* `LegacyLogger` models the formatter of `src/master-logger.py` (the older
  top-level module).

Python stack frames, class objects and the flask ambient lookup are embedded
as explicit data; every function mirrors the corresponding Python function of
the source line by line.
-/

namespace MasterLogger

/-- A Python class object.  `classId` stands for the identity of the class
object (what the Python `is` operator compares), `name` is its `__name__`. -/
structure PyClass where
  classId : Nat
  name : String
deriving DecidableEq

/-- The `Logger` class object defined in `master_logger/master_logger.py`. -/
def loggerClass : PyClass := ⟨0, "Logger"⟩

/-- A Python object as the logger observes it: only its runtime class is ever
read (`self.__class__`). -/
structure PyObj where
  cls : PyClass
deriving DecidableEq

/-- A stack frame, restricted to the pieces `_get_caller_from_stack` and
`_get_class_name` read: the locals `self` and `cls` (when bound), the code
object's name and the current line number. -/
structure Frame where
  locals_self : Option PyObj
  locals_cls : Option PyClass
  co_name : String
  f_lineno : Nat
deriving DecidableEq

/-- A Python value that is either the initial string `""` of the
`line_number` variable or the integer `f_lineno` assigned to it. -/
inductive LineVal
  | str (s : String)
  | num (n : Nat)
deriving DecidableEq

/-- How an f-string renders the `line_number` value. -/
def LineVal.render : LineVal → String
  | .str s => s
  | .num n => toString n

/-- The skip test of `_get_caller_from_stack`:
`type(stack[i][0].f_locals.get("self")) is Logger`. -/
def isLoggerFrame (f : Frame) : Bool :=
  match f.locals_self with
  | some o => o.cls == loggerClass
  | none => false

/-- `Logger._get_class_name`: the `self` local's class name if `self` is
bound, else the `cls` local's own name if `cls` is bound, else `""`. -/
def get_class_name (f : Frame) : String :=
  match f.locals_self with
  | some o => o.cls.name
  | none =>
    match f.locals_cls with
    | some c => c.name
    | none => ""

/-- The `for i in range(len(stack)-1)` loop body of
`_get_caller_from_stack`: `continue` past Logger frames, `break` at the
first frame that is not one. -/
def findCallerLoop : List Frame → Option Frame
  | [] => none
  | f :: rest => if isLoggerFrame f then findCallerLoop rest else some f

/-- `Logger._get_caller_from_stack`.  The stack list is innermost frame
first, exactly as `inspect.stack()` returns it; the loop runs over
`range(len(stack)-1)`, i.e. over all frames but the outermost one. -/
def get_caller_from_stack (stack : List Frame) : String × String × LineVal :=
  match findCallerLoop (stack.take (stack.length - 1)) with
  | some f => (get_class_name f, f.co_name, LineVal.num f.f_lineno)
  | none => ("", "", LineVal.str "")

/-- Outcome of the flask interaction inside `get_execution_context`'s `try`
block: the import may raise `ModuleNotFoundError`/`ImportError`, touching the
request proxy may raise `RuntimeError`/`AttributeError` (all four are
caught), `has_request_context()` may be false, or a request is live and
`getattr(request, "request_id", "")` yields a string (the default `""` when
the attribute is missing). -/
inductive AmbientOutcome
  | importFailed
  | runtimeFailed
  | noRequestContext
  | requestId (s : String)
deriving DecidableEq

/-- The two ContextVar values as seen by the task that calls the logger:
`execution_context` and `context_key`, both defaulting to `""`. -/
structure TaskContext where
  execution_context : String
  context_key : String
deriving DecidableEq

/-- The string the caught-failure and no-request paths of the `try` block
produce (all give `""`); a live request yields its `request_id` attribute. -/
def ambientFallback : AmbientOutcome → String
  | .requestId s => s
  | _ => ""

/-- `Logger.get_execution_context`: the ContextVar value when truthy,
otherwise the flask fallback, with every caught failure mapped to `""`. -/
def get_execution_context (ctx : TaskContext) (amb : AmbientOutcome) : String :=
  if ctx.execution_context ≠ "" then ctx.execution_context
  else ambientFallback amb

/-- Behaviour of the `self._get_caller_from_stack()` call inside the `try`
of `_get_context_string`: either `inspect.stack()` produced a frame list, or
the inspection raised and the `except Exception` branch runs. -/
inductive ResolveOutcome
  | ok (stack : List Frame)
  | raised
deriving DecidableEq

/-- The `(class_name, method_or_function_name, line_number)` triple after the
`try`/`except` of `_get_context_string`: the resolver's result, or all-empty
when the inspection raised. -/
def resolve_caller : ResolveOutcome → String × String × LineVal
  | .ok stack => get_caller_from_stack stack
  | .raised => ("", "", LineVal.str "")

/-- The `prefix` accumulation of `_get_context_string`, after its local
variables have been bound: four conditional bracket appends in source
order. -/
def mkHeader (log_line_number : Bool) (ec cn mn : String) (ln : LineVal)
    (key : String) : String :=
  let p := ""
  let p := if ec ≠ "" then p ++ "[" ++ ec ++ "]" else p
  let p := if cn ≠ "" then p ++ "[" ++ cn ++ "]" else p
  let p :=
    if mn ≠ "" then
      let q := p ++ "[" ++ mn
      let q := if log_line_number then q ++ ":" ++ ln.render else q
      q ++ "]"
    else p
  if key ≠ "" then p ++ "[" ++ key ++ "]" else p

/-- `Logger._get_context_string`, parametrised by the facility's
`log_line_number` flag, the calling task's ContextVar values, the ambient
flask outcome and the stack-inspection outcome. -/
def get_context_string (llb : Bool) (ctx : TaskContext) (amb : AmbientOutcome)
    (ro : ResolveOutcome) : String :=
  let ec := get_execution_context ctx amb
  let r := resolve_caller ro
  mkHeader llb ec r.1 r.2.1 r.2.2 ctx.context_key

/-- The `message.startswith("[")` test of the six severity methods: true
exactly when the message's first character is `[`. -/
def startsWithBracket (s : String) : Bool :=
  match s.data with
  | [] => false
  | c :: _ => c == '['

/-- The sink severities of the `logging` module the six methods call into
(`logger.exception` is the error-level call that also attaches the active
traceback). -/
inductive Severity
  | debug | info | warning | error | critical | exception
deriving DecidableEq

/-- One call handed to the underlying `logging` sink: which severity method
was invoked and the fully formatted message string. -/
structure SinkCall where
  severity : Severity
  line : String
deriving DecidableEq

/-- `Logger.debug`. -/
def debug (llb : Bool) (ctx : TaskContext) (amb : AmbientOutcome)
    (ro : ResolveOutcome) (message : String) : SinkCall :=
  ⟨.debug, get_context_string llb ctx amb ro
    ++ (if startsWithBracket message then "" else " ") ++ message⟩

/-- `Logger.info`. -/
def info (llb : Bool) (ctx : TaskContext) (amb : AmbientOutcome)
    (ro : ResolveOutcome) (message : String) : SinkCall :=
  ⟨.info, get_context_string llb ctx amb ro
    ++ (if startsWithBracket message then "" else " ") ++ message⟩

/-- `Logger.warning`. -/
def warning (llb : Bool) (ctx : TaskContext) (amb : AmbientOutcome)
    (ro : ResolveOutcome) (message : String) : SinkCall :=
  ⟨.warning, get_context_string llb ctx amb ro
    ++ (if startsWithBracket message then "" else " ") ++ message⟩

/-- `Logger.error`. -/
def error (llb : Bool) (ctx : TaskContext) (amb : AmbientOutcome)
    (ro : ResolveOutcome) (message : String) : SinkCall :=
  ⟨.error, get_context_string llb ctx amb ro
    ++ (if startsWithBracket message then "" else " ") ++ message⟩

/-- `Logger.critical`. -/
def critical (llb : Bool) (ctx : TaskContext) (amb : AmbientOutcome)
    (ro : ResolveOutcome) (message : String) : SinkCall :=
  ⟨.critical, get_context_string llb ctx amb ro
    ++ (if startsWithBracket message then "" else " ") ++ message⟩

/-- `Logger.exception`. -/
def exception (llb : Bool) (ctx : TaskContext) (amb : AmbientOutcome)
    (ro : ResolveOutcome) (message : String) : SinkCall :=
  ⟨.exception, get_context_string llb ctx amb ro
    ++ (if startsWithBracket message then "" else " ") ++ message⟩

/-- The attributes `__init__` stores (directly or through module-global
handles): the two ContextVar objects it creates, identified by allocation
ids, the `log_line_number` flag, and the level passed to
`self.logger.setLevel`. -/
structure LoggerObj where
  objId : Nat
  exec_var : Nat
  key_var : Nat
  log_line_number : Bool
  logger_level : Nat
deriving DecidableEq

/-- The process-wide class attributes `Logger.SINGLETON_INSTANCE` and
`Logger.INITIALIZED`, together with allocation counters that give fresh
identities to objects and ContextVars. -/
structure ProcState where
  singleton : Option LoggerObj
  initialized : Bool
  next_obj : Nat
  next_var : Nat
deriving DecidableEq

/-- The class attributes at process start: no instance, not initialized. -/
def initState : ProcState := ⟨none, false, 0, 0⟩

/-- A `Logger(log_line_number, logger_level)` call: `__new__` returns the
existing singleton or allocates a bare object, then `__init__` runs on the
result and returns immediately when `INITIALIZED` is already set. -/
def constructLogger (st : ProcState) (log_line_number : Bool)
    (logger_level : Nat) : ProcState × LoggerObj :=
  let r :=
    match st.singleton with
    | some o => (st, o)
    | none =>
      let o : LoggerObj := ⟨st.next_obj, 0, 0, true, 0⟩
      ({ st with singleton := some o, next_obj := st.next_obj + 1 }, o)
  let st1 := r.1
  let obj := r.2
  if st1.initialized then (st1, obj)
  else
    let o2 : LoggerObj :=
      { obj with
        exec_var := st1.next_var, key_var := st1.next_var + 1,
        log_line_number := log_line_number, logger_level := logger_level }
    ({ st1 with
        singleton := some o2
        initialized := true
        next_var := st1.next_var + 2 }, o2)

/-- Modelled from the spec: the task-scoped propagation of Python
`contextvars` (a platform capability, not repository code).  Tasks are
numbered; an event either spawns a task (the child starts with a copy of the
parent's current context, as `asyncio` tasks do), or performs the logger's
`set_execution_context` / `set_context_key` in some task, which rebinds the
variable in the calling task's context only. -/
inductive CtxEvent
  | spawn (parent child : Nat)
  | setExec (task : Nat) (v : String)
  | setKey (task : Nat) (v : String)
deriving DecidableEq

/-- Modelled from the spec: effect of one event on the per-task contexts. -/
def ctxStep (m : Nat → TaskContext) : CtxEvent → Nat → TaskContext
  | .spawn p c, t => if t = c then m p else m t
  | .setExec tk v, t =>
    if t = tk then { m t with execution_context := v } else m t
  | .setKey tk v, t =>
    if t = tk then { m t with context_key := v } else m t

/-- Modelled from the spec: running a whole event trace. -/
def ctxRun (m : Nat → TaskContext) : List CtxEvent → Nat → TaskContext
  | [] => m
  | e :: es => ctxRun (ctxStep m e) es

/-- Whether an event is a `set_execution_context`/`set_context_key` call
issued by task `a` itself. -/
def ownEvent (a : Nat) : CtxEvent → Bool
  | .spawn _ _ => false
  | .setExec t _ => t == a
  | .setKey t _ => t == a

/-- Whether an event spawns task `a` as the child. -/
def spawnsInto (a : Nat) : CtxEvent → Bool
  | .spawn _ c => c == a
  | _ => false

end MasterLogger

namespace LegacyLogger

/-- A Python value that is either `None` (the initial value of
`method_name` / `instance_class` in `_get_service_caller_from_stack`) or a
string. -/
inductive PyStrOpt
  | nil
  | str (s : String)
deriving DecidableEq

/-- Python truthiness of such a value. -/
def PyStrOpt.truthy : PyStrOpt → Bool
  | .nil => false
  | .str s => s ≠ ""

/-- How an f-string renders such a value. -/
def PyStrOpt.render : PyStrOpt → String
  | .nil => "None"
  | .str s => s

/-- Outcome of the `request.request_id` lookup in the legacy
`_get_context_string`: a value, or any exception (all are caught by the bare
`except Exception`, after which `self.execution_context` is used). -/
inductive LegacyAmbient
  | requestId (s : String)
  | failed
deriving DecidableEq

/-- The legacy `Logger._get_context_string` of `src/master-logger.py`,
parametrised by the instance attributes `execution_context` and
`context_key`, the flask lookup outcome, and the result of the
`_get_service_caller_from_stack()` call (`none` when it raised, in which
case the `except` branch binds `service, method = "", ""`). -/
def legacy_get_context_string (execution_context context_key : String)
    (amb : LegacyAmbient) (caller : Option (PyStrOpt × PyStrOpt)) : String :=
  let ec := match amb with
    | .requestId s => s
    | .failed => execution_context
  let sm := match caller with
    | some pair => pair
    | none => (PyStrOpt.str "", PyStrOpt.str "")
  let service := sm.1
  let method := sm.2
  let p := ""
  let p := if ec ≠ "" then p ++ "[" ++ ec ++ "]" else p
  let p := if service.truthy ∧ service ≠ PyStrOpt.str "Logger" then
      p ++ "[" ++ service.render ++ "]"
    else p
  let p := if method.truthy ∧ method ≠ service then
      p ++ "[" ++ method.render ++ "]"
    else p
  if context_key ≠ "" then p ++ "[" ++ context_key ++ "]" else p

end LegacyLogger

namespace MasterLogger

/-- A user class named `Worker`, distinct from the `Logger` class. -/
def workerClass : PyClass := ⟨2, "Worker"⟩

/-- The frame of `Logger.debug` while it executes (its `self` is the
facility instance). -/
def loggerDebugFrame : Frame := ⟨some ⟨loggerClass⟩, none, "debug", 160⟩

/-- The frame of `Logger._get_context_string` while it executes. -/
def loggerCtxFrame : Frame :=
  ⟨some ⟨loggerClass⟩, none, "_get_context_string", 141⟩

/-- The frame of `Logger._get_caller_from_stack` while it executes. -/
def loggerStackFrame : Frame :=
  ⟨some ⟨loggerClass⟩, none, "_get_caller_from_stack", 99⟩

/-- A module-level frame: no `self`, no `cls`, code name `<module>`. -/
def moduleFrame : Frame := ⟨none, none, "<module>", 7⟩

/-- A frame of an instance-bound method `process` of `Worker`. -/
def workerFrame : Frame := ⟨some ⟨workerClass⟩, none, "process", 10⟩

/-- A frame of a class-bound method `create` of `Worker` (`cls` bound, no
`self`). -/
def workerClsFrame : Frame := ⟨none, some workerClass, "create", 20⟩

/-- A frame of a plain function `helper` (neither `self` nor `cls`). -/
def plainFrame : Frame := ⟨none, none, "helper", 30⟩

/-- A frame of an instance-bound `Worker` method that is itself named
`Worker`. -/
def workerCtorFrame : Frame := ⟨some ⟨workerClass⟩, none, "Worker", 5⟩

/-- A frame of a method of a user-defined class that happens to be named
`Logger` but is a different class object than the facility's. -/
def userLoggerFrame : Frame := ⟨some ⟨⟨3, "Logger"⟩⟩, none, "handle", 3⟩

lemma findCallerLoop_eq_find (l : List Frame) :
    findCallerLoop l = l.find? (fun f => !isLoggerFrame f) := by
  induction l with
  | nil => rfl
  | cons f t ih =>
    by_cases h : isLoggerFrame f
    · simp [findCallerLoop, List.find?, h, ih]
    · simp [findCallerLoop, List.find?, h]

/-- The loop of `_get_caller_from_stack` is a `find?` over all frames but
the outermost. -/
lemma caller_eq_find (stack : List Frame) :
    get_caller_from_stack stack =
      match stack.dropLast.find? (fun f => !isLoggerFrame f) with
      | some f => (get_class_name f, f.co_name, LineVal.num f.f_lineno)
      | none => ("", "", LineVal.str "") := by
  unfold get_caller_from_stack
  rw [findCallerLoop_eq_find, List.dropLast_eq_take]

/-- The four conditional appends of `_get_context_string`, written as one
concatenation of four independent bracket pieces. -/
lemma mkHeader_eq (llb : Bool) (ec cn mn : String) (ln : LineVal)
    (key : String) :
    mkHeader llb ec cn mn ln key =
      (if ec ≠ "" then "[" ++ ec ++ "]" else "")
      ++ (if cn ≠ "" then "[" ++ cn ++ "]" else "")
      ++ (if mn ≠ "" then
            "[" ++ mn ++ (if llb then ":" ++ ln.render else "") ++ "]"
          else "")
      ++ (if key ≠ "" then "[" ++ key ++ "]" else "") := by
  unfold mkHeader
  by_cases h1 : ec = "" <;> by_cases h2 : cn = "" <;> by_cases h3 : mn = "" <;>
    by_cases h4 : key = "" <;> cases llb <;>
      (try simp [h1, h2, h3, h4, String.append_assoc]) <;> (try rfl)

/-- With line-number reporting off, the header never reads the
`line_number` value. -/
lemma mkHeader_no_line (ec cn mn key : String) (l l' : LineVal) :
    mkHeader false ec cn mn l key = mkHeader false ec cn mn l' key := by
  simp [mkHeader]

lemma isLoggerFrame_set_line (g : Frame) (n : Nat) :
    isLoggerFrame { g with f_lineno := n } = isLoggerFrame g := rfl

lemma get_class_name_set_line (g : Frame) (n : Nat) :
    get_class_name { g with f_lineno := n } = get_class_name g := rfl

lemma findCallerLoop_cons (f : Frame) (l : List Frame) :
    findCallerLoop (f :: l) = if isLoggerFrame f then findCallerLoop l else some f := rfl

lemma take_head (g b : Frame) (t : List Frame) :
    (g :: b :: t).take ((g :: b :: t).length - 1)
      = g :: ((b :: t).take ((b :: t).length - 1)) := by
  simp [List.take_succ_cons]

/-- Changing only the innermost caller frame's line number changes neither
the resolved class name nor the resolved function name. -/
lemma caller_head_line (g : Frame) (n : Nat) (rest : List Frame) :
    (get_caller_from_stack ({ g with f_lineno := n } :: rest)).1
        = (get_caller_from_stack (g :: rest)).1
    ∧ (get_caller_from_stack ({ g with f_lineno := n } :: rest)).2.1
        = (get_caller_from_stack (g :: rest)).2.1 := by
  cases rest with
  | nil => exact ⟨rfl, rfl⟩
  | cons b t =>
    unfold get_caller_from_stack
    rw [take_head, take_head, findCallerLoop_cons, findCallerLoop_cons,
      isLoggerFrame_set_line]
    by_cases hg : isLoggerFrame g
    · rw [if_pos hg, if_pos hg]
      exact ⟨rfl, rfl⟩
    · rw [if_neg hg, if_neg hg]
      exact ⟨get_class_name_set_line g n, rfl⟩

/-- An event that is neither issued by task `a` nor spawns `a` leaves `a`'s
context untouched. -/
lemma ctxStep_other (m : Nat → TaskContext) (e : CtxEvent) (a : Nat)
    (h1 : ownEvent a e = false) (h2 : spawnsInto a e = false) :
    ctxStep m e a = m a := by
  cases e with
  | spawn p c =>
    have hac : a ≠ c := by
      intro h; subst h; simp [spawnsInto] at h2
    simp [ctxStep, hac]
  | setExec tk v =>
    have hac : a ≠ tk := by
      intro h; subst h; simp [ownEvent] at h1
    simp [ctxStep, hac]
  | setKey tk v =>
    have hac : a ≠ tk := by
      intro h; subst h; simp [ownEvent] at h1
    simp [ctxStep, hac]

/-- Over a trace consisting solely of task `a`'s own set events, `a`'s final
context depends only on `a`'s initial context. -/
lemma ctxRun_agree_own (a : Nat) :
    ∀ (evs : List CtxEvent) (m mx : Nat → TaskContext),
      (∀ e ∈ evs, ownEvent a e = true) → m a = mx a →
      ctxRun m evs a = ctxRun mx evs a := by
  intro evs
  induction evs with
  | nil => intro m mx _ h; exact h
  | cons e es ih =>
    intro m mx hall hma
    have he : ownEvent a e = true := hall e (List.mem_cons_self e es)
    have hstep : ctxStep m e a = ctxStep mx e a := by
      cases e with
      | spawn p c => simp [ownEvent] at he
      | setExec tk v =>
        have htk : tk = a := by simpa [ownEvent] using he
        subst htk; simp [ctxStep, hma]
      | setKey tk v =>
        have htk : tk = a := by simpa [ownEvent] using he
        subst htk; simp [ctxStep, hma]
    exact ih (ctxStep m e) (ctxStep mx e)
      (fun x hx => hall x (List.mem_cons_of_mem e hx)) hstep

/-- So long as no event spawns task `a` itself, `a`'s context after a trace
is the same as after the subtrace of `a`'s own set events: concurrent
siblings' sets are invisible to `a`. -/
lemma ctxRun_filter_own (a : Nat) :
    ∀ (evs : List CtxEvent) (m : Nat → TaskContext),
      (∀ e ∈ evs, spawnsInto a e = false) →
      ctxRun m evs a = ctxRun m (evs.filter (fun e => ownEvent a e)) a := by
  intro evs
  induction evs with
  | nil => intro m _; rfl
  | cons e es ih =>
    intro m hall
    have htail : ∀ x ∈ es, spawnsInto a x = false :=
      fun x hx => hall x (List.mem_cons_of_mem e hx)
    by_cases he : ownEvent a e = true
    · rw [List.filter_cons_of_pos he]
      simp only [ctxRun]
      exact ih (ctxStep m e) htail
    · have he' : ownEvent a e = false := by
        cases h : ownEvent a e
        · rfl
        · exact absurd h he
      rw [List.filter_cons_of_neg (by simp [he'])]
      simp only [ctxRun]
      rw [ih (ctxStep m e) htail]
      exact ctxRun_agree_own a _ (ctxStep m e) m
        (fun x hx => (List.mem_filter.mp hx).2)
        (ctxStep_other m e a he' (hall e (List.mem_cons_self e es)))

end MasterLogger

namespace Claims

open MasterLogger LegacyLogger

/-- C1: For every two concurrently-running tasks A and B sharing the single
process-wide Logger instance, and for every sequence of
set_execution_context / set_context_key calls issued by each task, a log
line emitted by A never contains B's execution-scope or context-tag values:
a value set inside one concurrently-running task is invisible to sibling
tasks and to the parent task after it spawns children (part 1 and part 3:
A's context, and hence the line A's `debug` call emits, is unchanged when
every event of other tasks is dropped from the trace), but is visible to
everything the setting task calls or awaits (part 2: a spawned child starts
from a copy of the spawning task's current context; same-task calls and
awaits read the same task context by construction). -/
theorem c1_task_scoped_isolation :
    (∀ (m : Nat → TaskContext) (evs : List CtxEvent) (a : Nat),
        (∀ e ∈ evs, spawnsInto a e = false) →
        ctxRun m evs a = ctxRun m (evs.filter (fun e => ownEvent a e)) a)
    ∧ (∀ (m : Nat → TaskContext) (p c : Nat),
        ctxStep m (.spawn p c) c = m p)
    ∧ (∀ (m : Nat → TaskContext) (evs : List CtxEvent) (a : Nat) (llb : Bool)
        (amb : AmbientOutcome) (ro : ResolveOutcome) (msg : String),
        (∀ e ∈ evs, spawnsInto a e = false) →
        MasterLogger.debug llb (ctxRun m evs a) amb ro msg
          = MasterLogger.debug llb
              (ctxRun m (evs.filter (fun e => ownEvent a e)) a) amb ro msg) := by
  refine ⟨fun m evs a h => ctxRun_filter_own a evs m h, ?_, ?_⟩
  · intro m p c
    simp [ctxStep]
  · intro m evs a llb amb ro msg h
    rw [ctxRun_filter_own a evs m h]

/-- Witness for C1: task 1 logs after a trace in which only task 2 set a
scope and a tag; the emitted line equals the one from the trace with task
2's events filtered out. -/
theorem c1_task_scoped_isolation_witness :
    (∀ e ∈ [CtxEvent.setExec 2 "B-scope", CtxEvent.setKey 2 "B-tag"],
        spawnsInto 1 e = false)
    ∧ MasterLogger.debug true
        (ctxRun (fun _ => ⟨"A-scope", ""⟩)
          [CtxEvent.setExec 2 "B-scope", CtxEvent.setKey 2 "B-tag"] 1)
        .noRequestContext .raised "msg"
      = MasterLogger.debug true
          (ctxRun (fun _ => ⟨"A-scope", ""⟩)
            (([CtxEvent.setExec 2 "B-scope",
               CtxEvent.setKey 2 "B-tag"]).filter (fun e => ownEvent 1 e)) 1)
          .noRequestContext .raised "msg" :=
  ⟨by decide,
   c1_task_scoped_isolation.2.2 (fun _ => ⟨"A-scope", ""⟩)
     [CtxEvent.setExec 2 "B-scope", CtxEvent.setKey 2 "B-tag"] 1 true
     .noRequestContext .raised "msg" (by decide)⟩

/-- C2: Constructing the Logger a second time, with any (possibly
different) arguments, after a first successful construction returns the
identical singleton object and leaves every attribute set by the first
construction (the ContextVar storage identities, the line-number flag, the
severity threshold) unchanged; any construction on an initialized state
with an existing singleton is a no-op returning that object. -/
theorem c2_singleton_idempotent_construction :
    (∀ (lln1 : Bool) (lvl1 : Nat) (lln2 : Bool) (lvl2 : Nat),
        constructLogger (constructLogger initState lln1 lvl1).1 lln2 lvl2
          = constructLogger initState lln1 lvl1
        ∧ (constructLogger initState lln1 lvl1).2.log_line_number = lln1
        ∧ (constructLogger initState lln1 lvl1).2.logger_level = lvl1)
    ∧ (∀ (st : ProcState) (o : LoggerObj) (lln : Bool) (lvl : Nat),
        st.initialized = true → st.singleton = some o →
        constructLogger st lln lvl = (st, o)) := by
  constructor
  · intro lln1 lvl1 lln2 lvl2
    exact ⟨rfl, rfl, rfl⟩
  · intro st o lln lvl hinit hsing
    simp [constructLogger, hsing, hinit]

/-- Witness for C2: re-constructing on an initialized state with a concrete
singleton object returns that state and object unchanged. -/
theorem c2_singleton_idempotent_construction_witness :
    ((⟨some ⟨0, 0, 1, true, 10⟩, true, 1, 2⟩ : ProcState).initialized = true
      ∧ (⟨some ⟨0, 0, 1, true, 10⟩, true, 1, 2⟩ : ProcState).singleton
          = some ⟨0, 0, 1, true, 10⟩)
    ∧ constructLogger ⟨some ⟨0, 0, 1, true, 10⟩, true, 1, 2⟩ false 20
        = (⟨some ⟨0, 0, 1, true, 10⟩, true, 1, 2⟩, ⟨0, 0, 1, true, 10⟩) :=
  ⟨⟨rfl, rfl⟩,
   c2_singleton_idempotent_construction.2
     ⟨some ⟨0, 0, 1, true, 10⟩, true, 1, 2⟩ ⟨0, 0, 1, true, 10⟩ false 20
     rfl rfl⟩

/-- C3 counterexample: the claim says the resolver walks the frames from
the innermost outward, never skips a non-facility frame, and takes the
functionName directly from the first non-facility frame it finds.  On the
stack of a module-level `logger.debug` call the first (and only)
non-facility frame is the outermost `<module>` frame, yet the loop runs
over `range(len(stack)-1)` and never examines it: the result is the empty
attribution, not `<module>`'s name and line. -/
theorem c3_caller_walk_counterexample :
    isLoggerFrame moduleFrame = false
    ∧ moduleFrame.co_name = "<module>"
    ∧ (∀ f ∈ [loggerStackFrame, loggerCtxFrame, loggerDebugFrame],
        isLoggerFrame f = true)
    ∧ get_caller_from_stack
        [loggerStackFrame, loggerCtxFrame, loggerDebugFrame, moduleFrame]
      = ("", "", LineVal.str "")
    ∧ (get_caller_from_stack
        [loggerStackFrame, loggerCtxFrame, loggerDebugFrame,
         moduleFrame]).2.1 ≠ moduleFrame.co_name := by
  decide

/-- C3 amended: the caller resolver walks the frames from the innermost
outward excluding the outermost frame; among those it skips exactly the
frames whose receiver is of the facility's `Logger` class and takes
functionName and lineNumber directly from the first non-facility frame; it
never reads the name or line from a facility frame; if every examined frame
is a facility frame (in particular when the only non-facility frame is the
outermost one) it returns the empty attribution. -/
theorem c3_caller_walk_amended :
    (∀ stack : List Frame,
        get_caller_from_stack stack =
          match stack.dropLast.find? (fun f => !isLoggerFrame f) with
          | some f => (get_class_name f, f.co_name, LineVal.num f.f_lineno)
          | none => ("", "", LineVal.str ""))
    ∧ (∀ (stack : List Frame) (f : Frame),
        stack.dropLast.find? (fun g => !isLoggerFrame g) = some f →
        isLoggerFrame f = false
        ∧ get_caller_from_stack stack
            = (get_class_name f, f.co_name, LineVal.num f.f_lineno))
    ∧ (∀ stack : List Frame,
        (∀ f ∈ stack.dropLast, isLoggerFrame f = true) →
        get_caller_from_stack stack = ("", "", LineVal.str "")) := by
  refine ⟨caller_eq_find, ?_, ?_⟩
  · intro stack f h
    constructor
    · have hp := List.find?_some h
      simpa using hp
    · rw [caller_eq_find, h]
  · intro stack h
    rw [caller_eq_find]
    have hn : stack.dropLast.find? (fun f => !isLoggerFrame f) = none := by
      rw [List.find?_eq_none]
      intro x hx
      simp [h x hx]
    rw [hn]

/-- Witness for C3 amended: on a stack whose first non-facility frame is a
`Worker.process` frame, the resolver returns that frame's attribution. -/
theorem c3_caller_walk_amended_witness :
    ([loggerDebugFrame, workerFrame,
        moduleFrame].dropLast.find? (fun g => !isLoggerFrame g)
      = some workerFrame)
    ∧ (isLoggerFrame workerFrame = false
       ∧ get_caller_from_stack [loggerDebugFrame, workerFrame, moduleFrame]
           = (get_class_name workerFrame, workerFrame.co_name,
              LineVal.num workerFrame.f_lineno)) :=
  ⟨by decide,
   c3_caller_walk_amended.2.1 [loggerDebugFrame, workerFrame, moduleFrame]
     workerFrame (by decide)⟩

/-- C4: for the frame the resolver selects, the derived typeName is the
receiver object's class name when the frame has a bound `self` (a call
inside an instance-bound method), the class object's own name when it has a
bound `cls` but no `self` (a class-bound method), and the empty string when
it has neither (a plain function or static call with no implicit
receiver). -/
theorem c4_typename_heuristic (stack : List Frame) (f : Frame)
    (h : stack.dropLast.find? (fun g => !isLoggerFrame g) = some f) :
    (∀ o : PyObj, f.locals_self = some o →
        (get_caller_from_stack stack).1 = o.cls.name)
    ∧ (∀ c : PyClass, f.locals_self = none → f.locals_cls = some c →
        (get_caller_from_stack stack).1 = c.name)
    ∧ (f.locals_self = none → f.locals_cls = none →
        (get_caller_from_stack stack).1 = "") := by
  have hc : (get_caller_from_stack stack).1 = get_class_name f := by
    rw [caller_eq_find, h]
  refine ⟨?_, ?_, ?_⟩
  · intro o ho
    rw [hc]
    simp [get_class_name, ho]
  · intro c hs hcl
    rw [hc]
    simp [get_class_name, hs, hcl]
  · intro hs hcl
    rw [hc]
    simp [get_class_name, hs, hcl]

/-- Witness for C4: the three caller shapes at concrete stacks — an
instance-bound `Worker.process` frame gives `"Worker"`, a class-bound
`Worker.create` frame gives `"Worker"`, a plain `helper` frame gives
`""`. -/
theorem c4_typename_heuristic_witness :
    (get_caller_from_stack [loggerDebugFrame, workerFrame, moduleFrame]).1
      = "Worker"
    ∧ (get_caller_from_stack
        [loggerDebugFrame, workerClsFrame, moduleFrame]).1 = "Worker"
    ∧ (get_caller_from_stack [loggerDebugFrame, plainFrame, moduleFrame]).1
      = "" :=
  ⟨(c4_typename_heuristic [loggerDebugFrame, workerFrame, moduleFrame]
      workerFrame (by decide)).1 ⟨workerClass⟩ rfl,
   (c4_typename_heuristic [loggerDebugFrame, workerClsFrame, moduleFrame]
      workerClsFrame (by decide)).2.1 workerClass rfl rfl,
   (c4_typename_heuristic [loggerDebugFrame, plainFrame, moduleFrame]
      plainFrame (by decide)).2.2 rfl rfl⟩

/-- C5: every formatted log line is the fixed-order bracket header
[executionScope][typeName][functionName(:lineNumber)][contextTag] — each
bracket included only if its value is non-empty — followed by the message,
with no separating space when the message already begins with `[` and
exactly one space otherwise; in particular scope "S" with message "hello"
yields "[S] hello" and message "[already-bracketed] hello" yields
"[S][already-bracketed] hello". -/
theorem c5_bracket_order_spacing :
    (∀ (llb : Bool) (ctx : TaskContext) (amb : AmbientOutcome)
        (ro : ResolveOutcome) (msg : String),
        MasterLogger.debug llb ctx amb ro msg
          = ⟨.debug, get_context_string llb ctx amb ro
              ++ (if startsWithBracket msg then "" else " ") ++ msg⟩)
    ∧ (∀ (llb : Bool) (ec cn mn : String) (ln : LineVal) (key : String),
        mkHeader llb ec cn mn ln key =
          (if ec ≠ "" then "[" ++ ec ++ "]" else "")
          ++ (if cn ≠ "" then "[" ++ cn ++ "]" else "")
          ++ (if mn ≠ "" then
                "[" ++ mn ++ (if llb then ":" ++ ln.render else "") ++ "]"
              else "")
          ++ (if key ≠ "" then "[" ++ key ++ "]" else ""))
    ∧ (MasterLogger.debug true ⟨"S", ""⟩ .noRequestContext .raised
        "hello").line = "[S] hello"
    ∧ (MasterLogger.debug true ⟨"S", ""⟩ .noRequestContext .raised
        "[already-bracketed] hello").line = "[S][already-bracketed] hello" := by
  refine ⟨fun _ _ _ _ _ => rfl, mkHeader_eq, ?_, ?_⟩ <;> decide

/-- C6 counterexample: in the package module the typeName bracket is NOT
suppressed when the resolved typeName equals the facility's own type name
(`"Logger"`), and the functionName bracket is NOT suppressed when it equals
the typeName: a `Worker` method named `Worker` yields `[Worker][Worker:5]`,
and a method of a user class named `Logger` yields `[Logger][handle:3]`. -/
theorem c6_suppression_counterexample :
    get_caller_from_stack [loggerDebugFrame, workerCtorFrame, moduleFrame]
      = ("Worker", "Worker", LineVal.num 5)
    ∧ get_context_string true ⟨"", ""⟩ .noRequestContext
        (.ok [loggerDebugFrame, workerCtorFrame, moduleFrame])
      = "[Worker][Worker:5]"
    ∧ get_caller_from_stack [loggerDebugFrame, userLoggerFrame, moduleFrame]
      = ("Logger", "handle", LineVal.num 3)
    ∧ get_context_string true ⟨"", ""⟩ .noRequestContext
        (.ok [loggerDebugFrame, userLoggerFrame, moduleFrame])
      = "[Logger][handle:3]" := by
  decide

/-- C6 amended: the equality-based suppression exists only in the legacy
top-level module `master-logger.py`: there a resolved service equal to
`"Logger"` is formatted exactly as an empty service (part 1), and a
resolved method equal to the service is formatted exactly as an empty
method (part 2), so that module never shows `[Logger]` or `[Foo][Foo]`.
The package module `master_logger/master_logger.py` has no such rule: its
header includes the typeName and functionName brackets whenever they are
non-empty, with no equality suppression (part 3). -/
theorem c6_suppression_amended :
    (∀ (ec key : String) (amb : LegacyAmbient) (m : PyStrOpt),
        m ≠ PyStrOpt.str "Logger" →
        legacy_get_context_string ec key amb (some (.str "Logger", m))
          = legacy_get_context_string ec key amb (some (.str "", m)))
    ∧ (∀ (ec key s : String) (amb : LegacyAmbient),
        s ≠ "" → s ≠ "Logger" →
        legacy_get_context_string ec key amb (some (.str s, .str s))
          = legacy_get_context_string ec key amb (some (.str s, .str "")))
    ∧ (∀ ln : LineVal,
        mkHeader true "" "Logger" "Logger" ln ""
          = "[Logger][Logger:" ++ ln.render ++ "]") := by
  refine ⟨?_, ?_, ?_⟩
  · intro ec key amb m hm
    cases m with
    | nil => simp [legacy_get_context_string, PyStrOpt.truthy]
    | str s =>
      by_cases hs : s = ""
      · subst hs
        simp [legacy_get_context_string, PyStrOpt.truthy]
      · simp [legacy_get_context_string, PyStrOpt.truthy, hs, hm]
  · intro ec key s amb hs hsl
    simp [legacy_get_context_string, PyStrOpt.truthy, hs, hsl]
  · intro ln
    rfl

/-- Witness for C6 amended: a legacy line with service `"Logger"` equals
the line with no service, and a legacy line with method equal to service
`"Worker"` equals the line with no method. -/
theorem c6_suppression_amended_witness :
    ((PyStrOpt.str "run" ≠ PyStrOpt.str "Logger")
      ∧ legacy_get_context_string "cron" "k1" .failed
          (some (.str "Logger", .str "run"))
        = legacy_get_context_string "cron" "k1" .failed
            (some (.str "", .str "run")))
    ∧ (("Worker" : String) ≠ "" ∧ ("Worker" : String) ≠ "Logger"
      ∧ legacy_get_context_string "cron" "" .failed
          (some (.str "Worker", .str "Worker"))
        = legacy_get_context_string "cron" "" .failed
            (some (.str "Worker", .str ""))) :=
  ⟨⟨by decide,
    c6_suppression_amended.1 "cron" "k1" .failed (.str "run") (by decide)⟩,
   ⟨by decide, by decide,
    c6_suppression_amended.2.1 "cron" "" "Worker" .failed (by decide)
      (by decide)⟩⟩

/-- C7: no severity-leveled log operation ever raises past its own
boundary: all six operations are total and always hand the sink a line
ending in the message (parts 1-6); when the call-history inspection throws,
the `except Exception` branch yields the all-empty attribution (part 7) and
the emitted line is the message prefixed by at most the scope and tag
brackets (part 8). -/
theorem c7_never_raises :
    (∀ (llb : Bool) (ctx : TaskContext) (amb : AmbientOutcome)
        (ro : ResolveOutcome) (msg : String),
        ∃ p, (MasterLogger.debug llb ctx amb ro msg).line = p ++ msg)
    ∧ (∀ (llb : Bool) (ctx : TaskContext) (amb : AmbientOutcome)
        (ro : ResolveOutcome) (msg : String),
        ∃ p, (MasterLogger.info llb ctx amb ro msg).line = p ++ msg)
    ∧ (∀ (llb : Bool) (ctx : TaskContext) (amb : AmbientOutcome)
        (ro : ResolveOutcome) (msg : String),
        ∃ p, (MasterLogger.warning llb ctx amb ro msg).line = p ++ msg)
    ∧ (∀ (llb : Bool) (ctx : TaskContext) (amb : AmbientOutcome)
        (ro : ResolveOutcome) (msg : String),
        ∃ p, (MasterLogger.error llb ctx amb ro msg).line = p ++ msg)
    ∧ (∀ (llb : Bool) (ctx : TaskContext) (amb : AmbientOutcome)
        (ro : ResolveOutcome) (msg : String),
        ∃ p, (MasterLogger.critical llb ctx amb ro msg).line = p ++ msg)
    ∧ (∀ (llb : Bool) (ctx : TaskContext) (amb : AmbientOutcome)
        (ro : ResolveOutcome) (msg : String),
        ∃ p, (MasterLogger.exception llb ctx amb ro msg).line = p ++ msg)
    ∧ resolve_caller .raised = ("", "", LineVal.str "")
    ∧ (∀ (llb : Bool) (ctx : TaskContext) (amb : AmbientOutcome)
        (msg : String),
        (MasterLogger.debug llb ctx amb .raised msg).line
          = mkHeader llb (get_execution_context ctx amb) "" ""
              (LineVal.str "") ctx.context_key
            ++ (if startsWithBracket msg then "" else " ") ++ msg) := by
  refine ⟨?_, ?_, ?_, ?_, ?_, ?_, rfl, fun llb ctx amb msg => rfl⟩ <;>
    exact fun llb ctx amb ro msg => ⟨_, rfl⟩

/-- C8: `get_execution_context` returns the task's explicitly set
execution-scope value whenever it is non-empty (part 1); only with an empty
stored value does it consult the ambient flask lookup (part 2), every
failure or absence of which yields the empty string, never an error (part
3; the function is total by construction); the context tag has no such
fallback — the tag bracket holds exactly the stored `context_key` and an
empty tag appends nothing (part 4). -/
theorem c8_scope_fallback :
    (∀ (ctx : TaskContext) (amb : AmbientOutcome),
        ctx.execution_context ≠ "" →
        get_execution_context ctx amb = ctx.execution_context)
    ∧ (∀ (key : String) (amb : AmbientOutcome),
        get_execution_context ⟨"", key⟩ amb = ambientFallback amb)
    ∧ (ambientFallback .importFailed = ""
       ∧ ambientFallback .runtimeFailed = ""
       ∧ ambientFallback .noRequestContext = "")
    ∧ (∀ (llb : Bool) (ec cn mn : String) (ln : LineVal) (key : String),
        key ≠ "" →
        mkHeader llb ec cn mn ln key
          = mkHeader llb ec cn mn ln "" ++ "[" ++ key ++ "]") := by
  refine ⟨?_, ?_, ⟨rfl, rfl, rfl⟩, ?_⟩
  · intro ctx amb h
    simp [get_execution_context, h]
  · intro key amb
    simp [get_execution_context]
  · intro llb ec cn mn ln key h
    simp [mkHeader, h]

/-- Witness for C8: a non-empty stored scope wins over a failing ambient
lookup, and a non-empty tag is appended as its own final bracket. -/
theorem c8_scope_fallback_witness :
    (("scope1" : String) ≠ ""
      ∧ get_execution_context ⟨"scope1", "k"⟩ .importFailed = "scope1")
    ∧ (("acct" : String) ≠ ""
      ∧ mkHeader true "S" "C" "m" (LineVal.num 1) "acct"
          = mkHeader true "S" "C" "m" (LineVal.num 1) ""
            ++ "[" ++ "acct" ++ "]") :=
  ⟨⟨by decide, c8_scope_fallback.1 ⟨"scope1", "k"⟩ .importFailed (by decide)⟩,
   ⟨by decide,
    c8_scope_fallback.2.2.2 true "S" "C" "m" (LineVal.num 1) "acct"
      (by decide)⟩⟩

/-- C9: the lineNumber is appended to the functionName bracket if and only
if line-number reporting was enabled at construction: with the flag off,
two log calls whose innermost caller frames differ only in the source line
produce identical output (part 1); the function bracket is
`[name:line]` exactly when the flag is on and `[name]` when it is off
(part 2). -/
theorem c9_line_number_flag :
    (∀ (ctx : TaskContext) (amb : AmbientOutcome) (msg : String) (g : Frame)
        (n : Nat) (rest : List Frame),
        MasterLogger.debug false ctx amb
            (.ok ({ g with f_lineno := n } :: rest)) msg
          = MasterLogger.debug false ctx amb (.ok (g :: rest)) msg)
    ∧ (∀ (llb : Bool) (ec cn mn : String) (n : Nat) (key : String),
        mn ≠ "" →
        mkHeader llb ec cn mn (LineVal.num n) key
          = (if ec ≠ "" then "[" ++ ec ++ "]" else "")
            ++ (if cn ≠ "" then "[" ++ cn ++ "]" else "")
            ++ ("[" ++ mn ++ (if llb then ":" ++ toString n else "") ++ "]")
            ++ (if key ≠ "" then "[" ++ key ++ "]" else "")) := by
  constructor
  · intro ctx amb msg g n rest
    have h := caller_head_line g n rest
    have hgcs : get_context_string false ctx amb
        (.ok ({ g with f_lineno := n } :: rest))
        = get_context_string false ctx amb (.ok (g :: rest)) := by
      show mkHeader false (get_execution_context ctx amb)
          (get_caller_from_stack ({ g with f_lineno := n } :: rest)).1
          (get_caller_from_stack ({ g with f_lineno := n } :: rest)).2.1
          (get_caller_from_stack ({ g with f_lineno := n } :: rest)).2.2
          ctx.context_key
        = mkHeader false (get_execution_context ctx amb)
          (get_caller_from_stack (g :: rest)).1
          (get_caller_from_stack (g :: rest)).2.1
          (get_caller_from_stack (g :: rest)).2.2 ctx.context_key
      rw [h.1, h.2]
      exact mkHeader_no_line _ _ _ _ _ _
    simp only [MasterLogger.debug, hgcs]
  · intro llb ec cn mn n key h
    rw [mkHeader_eq]
    simp [h, LineVal.render]

/-- Witness for C9: with the flag off a non-empty function name `process`
at line 31 formats without the line number. -/
theorem c9_line_number_flag_witness :
    ("process" : String) ≠ ""
    ∧ mkHeader false "S" "" "process" (LineVal.num 31) "" = "[S][process]" :=
  ⟨by decide,
   c9_line_number_flag.2 false "S" "" "process" 31 "" (by decide)⟩

/-- C10: the six severity operations compute the identical formatted string
for the same facility state, caller context and message — the shared header
then the spacing rule then the message — and differ only in the sink
severity that receives it. -/
theorem c10_severity_refinement :
    ∀ (llb : Bool) (ctx : TaskContext) (amb : AmbientOutcome)
      (ro : ResolveOutcome) (msg : String),
      (MasterLogger.debug llb ctx amb ro msg).severity = .debug
      ∧ (MasterLogger.info llb ctx amb ro msg).severity = .info
      ∧ (MasterLogger.warning llb ctx amb ro msg).severity = .warning
      ∧ (MasterLogger.error llb ctx amb ro msg).severity = .error
      ∧ (MasterLogger.critical llb ctx amb ro msg).severity = .critical
      ∧ (MasterLogger.exception llb ctx amb ro msg).severity = .exception
      ∧ (MasterLogger.info llb ctx amb ro msg).line
          = (MasterLogger.debug llb ctx amb ro msg).line
      ∧ (MasterLogger.warning llb ctx amb ro msg).line
          = (MasterLogger.debug llb ctx amb ro msg).line
      ∧ (MasterLogger.error llb ctx amb ro msg).line
          = (MasterLogger.debug llb ctx amb ro msg).line
      ∧ (MasterLogger.critical llb ctx amb ro msg).line
          = (MasterLogger.debug llb ctx amb ro msg).line
      ∧ (MasterLogger.exception llb ctx amb ro msg).line
          = (MasterLogger.debug llb ctx amb ro msg).line
      ∧ (MasterLogger.debug llb ctx amb ro msg).line
          = get_context_string llb ctx amb ro
            ++ (if startsWithBracket msg then "" else " ") ++ msg := by
  intro llb ctx amb ro msg
  exact ⟨rfl, rfl, rfl, rfl, rfl, rfl, rfl, rfl, rfl, rfl, rfl, rfl⟩

end Claims
